import Mathlib

/-!
Verification of the polyline drawing tool for lightweight-charts
(`plugin-examples/src/plugins/polyline-drawing-tool`).

The development shallowly embeds the three cooperating pieces of the source:

* `PolylineRenderer.draw` — the stateless canvas paint routine, embedded as a
  function producing the list of canvas operations it would issue;
* `PolylinePaneView.update` / the projection cache — embedded as a function on
  a cache state, parameterised by the chart/series coordinate mappings;
* `PolylineDrawingTool` — the interaction state machine, embedded as functions
  `ToolState → ToolState × List Effect` where `Effect` records the calls made
  to the host chart (subscription management, repaint requests).

JavaScript arrays are mutable objects aliased by reference; where a claim is
about aliasing (snapshot immutability, defensive copies) we additionally embed
the relevant code over an explicit store of arrays (`ArrStore`), with array
references modelled as indices into the store.  Records such as option bags
and point objects are never mutated in place anywhere in the source (they are
only ever replaced wholesale by fresh literals / spreads), so they are
embedded by value.

`console.log` tracing, toolbar DOM construction and the debug DOM click
listener are observability-only glue with no effect on the modelled state and
are omitted, as are the `try`/`catch` blocks around coordinate conversion
(the embedded conversion functions are total).
-/

/-! ## Data model -/

/-- `PolylinePoint { time, price }`.  `Time` is embedded as `Int` (a UTC
timestamp); prices are embedded as `ℚ` in place of IEEE doubles — no claim
here depends on rounding of prices, only on nullability and ordering of
whole points. -/
structure PolylinePoint where
  time : Int
  price : ℚ
deriving DecidableEq

/-- `lineStyle: 'solid' | 'dashed'`. -/
inductive LineStyle where
  | solid
  | dashed
deriving DecidableEq

/-- `PolylineOptions`. -/
structure PolylineOptions where
  color : String
  lineWidth : ℚ
  lineStyle : LineStyle
  dashPattern : Option (List ℚ)
  pointRadius : ℚ
  pointColor : String
deriving DecidableEq

/-- `defaultOptions`. -/
def defaultOptions : PolylineOptions :=
  { color := "#2962FF", lineWidth := 2, lineStyle := .solid,
    dashPattern := none, pointRadius := 4, pointColor := "#2962FF" }

/-- `ViewPoint { x: number | null, y: number | null }`. -/
structure ViewPoint where
  x : Option ℚ
  y : Option ℚ
deriving DecidableEq

/-- The `{x, y}` pixel position carried by a mouse event. -/
structure MousePoint where
  x : ℚ
  y : ℚ
deriving DecidableEq

/-- `MouseEventParams`: the event may lack the pixel point (pointer off the
plot area) and may lack the time (pointer off the data range). -/
structure MouseEventParams where
  point : Option MousePoint
  time : Option Int
deriving DecidableEq

/-- The chart handle capability used by this code: `timeScale().timeToCoordinate`,
returning `null` when the time is not representable. -/
structure ChartHandle where
  timeToCoordinate : Int → Option ℚ

/-- The series handle capabilities used by this code. -/
structure SeriesHandle where
  priceToCoordinate : ℚ → Option ℚ
  coordinateToPrice : ℚ → Option ℚ

/-! ## Canvas operations

`draw` is embedded as the list of operations it issues against the 2D
context, in order.  `Math.round(q)` is `⌊q + 1/2⌋` (JS rounds half toward
positive infinity). -/

/-- JS `Math.round`. -/
def jsRound (q : ℚ) : Int := Rat.floor (q + 1/2)

/-- One canvas-context operation issued by the renderer. -/
inductive CanvasOp where
  | save
  | restore
  | fillStyle (c : String)
  | strokeStyle (c : String)
  | lineWidthSet (w : ℚ)
  | lineDashSet (pattern : List ℚ)
  | beginPath
  | moveTo (x y : Int)
  | lineTo (x y : Int)
  | arc (x y : Int) (r : ℚ)
  | stroke
  | fill
deriving DecidableEq

/-! ## Polyline renderer (`PolylineRenderer.draw`) -/

/-- The marker ops for one entry of the marker loop
(`for (const point of points) { if (point && point.x !== null && point.y !== null) ... }`). -/
def markerOps (options : PolylineOptions) (hpr vpr : ℚ) (p : ViewPoint) : List CanvasOp :=
  match p.x, p.y with
  | some x, some y =>
      [.beginPath,
       .arc (jsRound (x * hpr)) (jsRound (y * vpr)) (options.pointRadius * hpr),
       .fill]
  | _, _ => []

/-- The `lineTo` issued for one entry of the segment loop
(`for (let i = 1; i < points.length; i++) { if (point && ...) ctx.lineTo(...) }`). -/
def segOp (hpr vpr : ℚ) (p : ViewPoint) : Option CanvasOp :=
  match p.x, p.y with
  | some x, some y => some (.lineTo (jsRound (x * hpr)) (jsRound (y * vpr)))
  | _, _ => none

/-- The dash-pattern setup (`if (options.lineStyle === 'dashed') ...`). -/
def dashOps (options : PolylineOptions) (hpr : ℚ) : List CanvasOp :=
  match options.lineStyle with
  | .dashed =>
      match options.dashPattern with
      | some pat => [.lineDashSet (pat.map (fun p => p * hpr))]
      | none => [.lineDashSet [5 * hpr, 5 * hpr]]
  | .solid => []

/-- The optional `lineTo` extending the path to the temp point
(`if (tempPoint && tempPoint.x !== null && tempPoint.y !== null) ctx.lineTo(...)`). -/
def tempSegOps (hpr vpr : ℚ) : Option ViewPoint → List CanvasOp
  | some ⟨some x, some y⟩ => [.lineTo (jsRound (x * hpr)) (jsRound (y * vpr))]
  | _ => []

/-- `PolylineRenderer.draw`, embedded as the list of context operations it
issues inside `useBitmapCoordinateSpace`, given the renderer payload
(`points`, `options`, `tempPoint`) and the two pixel ratios. -/
def PolylineRenderer.draw (points : List ViewPoint) (options : PolylineOptions)
    (tempPoint : Option ViewPoint) (hpr vpr : ℚ) : List CanvasOp :=
  CanvasOp.save ::
    (match points with
     | [] =>
        -- `points.length === 0 && tempPoint && tempPoint.x !== null && tempPoint.y !== null`
        (match tempPoint with
         | some ⟨some x, some y⟩ =>
            [.fillStyle options.pointColor, .beginPath,
             .arc (jsRound (x * hpr)) (jsRound (y * vpr)) (options.pointRadius * hpr),
             .fill, .restore]
         -- second early return: `if (points.length === 0) { ctx.restore(); return; }`
         | _ => [.restore])
     | firstPoint :: rest =>
        CanvasOp.strokeStyle options.color
          :: CanvasOp.lineWidthSet (options.lineWidth * hpr)
          :: dashOps options hpr
          ++ CanvasOp.beginPath
          :: (match firstPoint.x, firstPoint.y with
              | some x0, some y0 =>
                  CanvasOp.moveTo (jsRound (x0 * hpr)) (jsRound (y0 * vpr))
                    :: rest.filterMap (segOp hpr vpr)
                    ++ tempSegOps hpr vpr tempPoint
                    ++ CanvasOp.stroke
                    :: CanvasOp.fillStyle options.pointColor
                    :: ((firstPoint :: rest).map (markerOps options hpr vpr)).flatten
              -- `else { console.log('First point invalid, cannot draw polyline'); }`
              | _, _ => [])
          ++ [CanvasOp.restore])

/-! ## Extraction helpers over canvas-op lists -/

/-- The vertex contributed by a path-building op (`moveTo`/`lineTo`). -/
def pathVertex : CanvasOp → Option (Int × Int)
  | .moveTo x y => some (x, y)
  | .lineTo x y => some (x, y)
  | _ => none

/-- The sequence of vertices of the stroked path, in issue order. -/
def pathOf (ops : List CanvasOp) : List (Int × Int) := ops.filterMap pathVertex

/-- The centre of an `arc` op. -/
def arcCenter : CanvasOp → Option (Int × Int)
  | .arc x y _ => some (x, y)
  | _ => none

/-- The sequence of marker centres painted, in issue order. -/
def arcCentersOf (ops : List CanvasOp) : List (Int × Int) := ops.filterMap arcCenter

/-- The rounded pixel of a view point that has both coordinates, `none` for an
unresolved view point: exactly the renderer's per-point null check. -/
def resolvedPixel (hpr vpr : ℚ) (p : ViewPoint) : Option (Int × Int) :=
  match p.x, p.y with
  | some x, some y => some (jsRound (x * hpr), jsRound (y * vpr))
  | _, _ => none

/-- The pixels of the resolvable points of a list, in order. -/
def resolvedPixels (pts : List ViewPoint) (hpr vpr : ℚ) : List (Int × Int) :=
  pts.filterMap (resolvedPixel hpr vpr)

/-! ## Pane view projection cache (`PolylinePaneView`) -/

/-- `PolylinePaneView`'s mutable fields: `_viewPoints` and `_tempViewPoint`.
(`_source` is passed explicitly to `update` below.) -/
structure PaneViewState where
  _viewPoints : List ViewPoint
  _tempViewPoint : Option ViewPoint
deriving DecidableEq

/-- Field initializers: `_viewPoints: ViewPoint[] = []`, `_tempViewPoint = null`. -/
def initPaneView : PaneViewState := ⟨[], none⟩

/-- One iteration of the projection loop in `update`:
`priceToCoordinate` / `timeToCoordinate`, pushing `{x, y}` only when both are
non-null (`if (x !== null && y !== null) push({x, y}) else skip`). -/
def projectPoint (ch : ChartHandle) (ser : SeriesHandle) (p : PolylinePoint) :
    Option ViewPoint :=
  match ch.timeToCoordinate p.time, ser.priceToCoordinate p.price with
  | some x, some y => some ⟨some x, some y⟩
  | _, _ => none

/-- `PolylinePaneView.update()`.  Reads `this._source`'s `_points`,
`_tempPoint`, `chart`, `series` (the first four arguments) and rebuilds the
cache; `if (!series || !chart) return;` leaves the cache untouched. -/
def PolylinePaneView.update (srcPoints : List PolylinePoint)
    (srcTemp : Option PolylinePoint) (chart : Option ChartHandle)
    (series : Option SeriesHandle) (pv : PaneViewState) : PaneViewState :=
  match series, chart with
  | some ser, some ch =>
      { _viewPoints := srcPoints.filterMap (projectPoint ch ser),
        _tempViewPoint :=
          match srcTemp with
          | some tp =>
              (match ch.timeToCoordinate tp.time, ser.priceToCoordinate tp.price with
               | some x, some y => some ⟨some x, some y⟩
               | _, _ => none)
          | none => none }
  | _, _ => pv

/-! ## Interaction state machine (`PolylineDrawingTool`) -/

/-- Calls the tool makes on its host: subscription management on the chart and
invocations of the `requestUpdate` callback. -/
inductive Effect where
  | subscribeClick
  | subscribeCrosshairMove
  | unsubscribeClick
  | unsubscribeCrosshairMove
  | requestRepaint
deriving DecidableEq

/-- `PolylineDrawingTool`'s modelled fields.  `_clickHandlerSet` /
`_moveHandlerSet` record whether `_clickHandler` / `_moveHandler` are non-null
(the handlers are closures over `this`, so their behaviour is a function of the
current state, modelled by `clickHandlerBody` / `moveHandlerBody` below);
`_requestUpdateSet` records whether `_requestUpdate` is non-null.  Toolbar DOM
fields are omitted (pure presentation). -/
structure ToolState where
  _chart : Option ChartHandle
  _series : Option SeriesHandle
  _points : List PolylinePoint
  _options : PolylineOptions
  _active : Bool
  _clickHandlerSet : Bool
  _moveHandlerSet : Bool
  _tempPoint : Option PolylinePoint
  _requestUpdateSet : Bool
  _paneView : PaneViewState

/-- `_updateView()`: call `this._requestUpdate()` when it is set. -/
def updateView (s : ToolState) : List Effect :=
  if s._requestUpdateSet then [.requestRepaint] else []

/-- `_addPoint(point)`: push onto `_points`, force `update()` on the pane
view, then `_updateView()`.  The source's guard re-checking `point.time` /
`point.price` against `null`/`undefined` is vacuous here: both fields are
total values by construction on this path. -/
def addPoint (s : ToolState) (p : PolylinePoint) : ToolState × List Effect :=
  let s1 : ToolState := { s with _points := s._points ++ [p] }
  let s2 : ToolState :=
    { s1 with _paneView :=
        PolylinePaneView.update s1._points s1._tempPoint s1._chart s1._series s1._paneView }
  (s2, updateView s2)

/-- The body of the click handler closure installed by `activate` (reading the
current fields of `this`).  `!param.time` is JS truthiness: it rejects both a
missing time and the falsy time `0`. -/
def clickHandlerBody (s : ToolState) (param : MouseEventParams) :
    ToolState × List Effect :=
  if s._active = false then (s, [])
  else
    match param.point with
    | none => (s, [])
    | some pt =>
      match param.time with
      | none => (s, [])
      | some t =>
        if t = 0 then (s, [])
        else
          match s._series with
          | none => (s, [])
          | some ser =>
            match ser.coordinateToPrice pt.y with
            | none => (s, [])
            | some price => addPoint s ⟨t, price⟩

/-- The body of the crosshair-move handler closure installed by `activate`.
The guard `!this._active || !param.point || !param.time || !this._series`
clears the temp point (again `!param.time` rejects the falsy time `0`). -/
def moveHandlerBody (s : ToolState) (param : MouseEventParams) :
    ToolState × List Effect :=
  match s._active, param.point, param.time, s._series with
  | true, some pt, some t, some ser =>
    if t = 0 then
      let s1 : ToolState := { s with _tempPoint := none }
      (s1, updateView s1)
    else
      match ser.coordinateToPrice pt.y with
      | none =>
          let s1 : ToolState := { s with _tempPoint := none }
          (s1, updateView s1)
      | some price =>
          let s1 : ToolState := { s with _tempPoint := some ⟨t, price⟩ }
          (s1, updateView s1)
  | _, _, _, _ =>
      let s1 : ToolState := { s with _tempPoint := none }
      (s1, updateView s1)

/-- Delivery of a click notification by the chart: the handler runs only while
it is subscribed (`_clickHandler` non-null). -/
def notifyClick (s : ToolState) (param : MouseEventParams) :
    ToolState × List Effect :=
  if s._clickHandlerSet then clickHandlerBody s param else (s, [])

/-- Delivery of a crosshair-move notification by the chart. -/
def notifyMove (s : ToolState) (param : MouseEventParams) :
    ToolState × List Effect :=
  if s._moveHandlerSet then moveHandlerBody s param else (s, [])

/-- `activate(chart, series)`: early return when already active; otherwise
store the handles, set `_active`, install both handlers and subscribe them.
(Button restyling and the debug DOM listener are presentation only.) -/
def activate (ch : ChartHandle) (ser : SeriesHandle) (s : ToolState) :
    ToolState × List Effect :=
  if s._active then (s, [])
  else
    ({ s with _chart := some ch, _series := some ser, _active := true,
              _clickHandlerSet := true, _moveHandlerSet := true },
     [.subscribeClick, .subscribeCrosshairMove])

/-- `deactivate()`: `if (!this._active || !this._chart) return;`, then
unsubscribe whichever handlers are set, clear the handles, flag and temp
point, and `_updateView()`. -/
def deactivate (s : ToolState) : ToolState × List Effect :=
  if s._active = false then (s, [])
  else
    match s._chart with
    | none => (s, [])
    | some _ =>
      let unsubC := if s._clickHandlerSet then [Effect.unsubscribeClick] else []
      let unsubM := if s._moveHandlerSet then [Effect.unsubscribeCrosshairMove] else []
      let s1 : ToolState :=
        { s with _clickHandlerSet := false, _moveHandlerSet := false,
                 _active := false, _chart := none, _series := none,
                 _tempPoint := none }
      (s1, unsubC ++ unsubM ++ updateView s1)

/-- `clearPoints()`: unconditional reset of `_points` and `_tempPoint`, then
`_updateView()`. -/
def clearPoints (s : ToolState) : ToolState × List Effect :=
  let s1 : ToolState := { s with _points := [], _tempPoint := none }
  (s1, updateView s1)

/-- `getPoints()`: `return [...this._points];` — the value returned; the
aliasing consequence of the spread copy is modelled separately over `ArrStore`
by `heapGetPoints`. -/
def getPoints (s : ToolState) : List PolylinePoint := s._points

/-- `Partial<PolylineOptions>`: each field optionally overridden.  (Callers in
the source never pass an explicitly-`undefined` field, so absence is the only
"no override" case.) -/
structure OptionsPatch where
  color : Option String
  lineWidth : Option ℚ
  lineStyle : Option LineStyle
  dashPattern : Option (List ℚ)
  pointRadius : Option ℚ
  pointColor : Option String
deriving DecidableEq

/-- The object spread `{ ...base, ...patch }` over `PolylineOptions`. -/
def mergeOptions (base : PolylineOptions) (p : OptionsPatch) : PolylineOptions :=
  { color := p.color.getD base.color,
    lineWidth := p.lineWidth.getD base.lineWidth,
    lineStyle := p.lineStyle.getD base.lineStyle,
    dashPattern :=
      match p.dashPattern with
      | some d => some d
      | none => base.dashPattern,
    pointRadius := p.pointRadius.getD base.pointRadius,
    pointColor := p.pointColor.getD base.pointColor }

/-- `applyOptions(options)`: replace `_options` by the merged record (a fresh
object — the previous record is not mutated), then `_updateView()`. -/
def applyOptions (s : ToolState) (p : OptionsPatch) : ToolState × List Effect :=
  let s1 : ToolState := { s with _options := mergeOptions s._options p }
  (s1, updateView s1)

/-- The projected `{time, price}` a click event commits, `none` when the
source's click handler would ignore the event (missing pixel point, missing
or falsy time, failed price conversion). -/
def clickToPoint (ser : SeriesHandle) (param : MouseEventParams) :
    Option PolylinePoint :=
  match param.point, param.time with
  | some pt, some t =>
      if t = 0 then none
      else
        match ser.coordinateToPrice pt.y with
        | some price => some ⟨t, price⟩
        | none => none
  | _, _ => none

/-- Folding a sequence of delivered click notifications, keeping the state. -/
def clickStep (s : ToolState) (param : MouseEventParams) : ToolState :=
  (notifyClick s param).1

/-! ## Explicit array store (aliasing model)

JS arrays are heap objects aliased by reference.  `ArrStore α` is a heap of
arrays of `α`; a reference is an index into the store.  `update()` allocates a
fresh array (`this._viewPoints = []`) and then pushes into it, `getPoints()`
allocates a fresh array holding a copy of the current contents
(`[...this._points]`), and `applyOptions` allocates a fresh options object
(`{ ...this._options, ...options }`). -/

/-- A heap of arrays; references are indices. -/
abbrev ArrStore (α : Type) := List (List α)

/-- Allocate a fresh array with contents `v`; returns its reference. -/
def ArrStore.alloc (s : ArrStore α) (v : List α) : Nat × ArrStore α :=
  (s.length, s ++ [v])

/-- Dereference (a dangling reference reads as the empty array; all theorems
below assume valid references). -/
def ArrStore.get (s : ArrStore α) (r : Nat) : List α :=
  s.getD r []

/-- `arr.push(v)` on the array referenced by `r`. -/
def ArrStore.push (s : ArrStore α) (r : Nat) (v : α) : ArrStore α :=
  s.set r (s.get r ++ [v])

/-- The pane view with array aliasing made explicit: `vpStore` holds the
view-point arrays, `optStore` the option records (also aliased by reference:
the renderer payload captures `this._source._options`), and the two `Ref`
fields are the references currently held in `_viewPoints` and in the source
tool's `_options`. -/
structure HeapPaneView where
  vpStore : ArrStore ViewPoint
  optStore : List PolylineOptions
  _viewPointsRef : Nat
  _tempViewPoint : Option ViewPoint
  _optionsRef : Nat

/-- One iteration of `update()`'s projection loop over the store: push the
projected `{x, y}` into the array referenced by `r` when both coordinates are
non-null, else skip. -/
def pushProjected (ch : ChartHandle) (ser : SeriesHandle) (r : Nat)
    (acc : ArrStore ViewPoint) (p : PolylinePoint) : ArrStore ViewPoint :=
  match projectPoint ch ser p with
  | some vp => ArrStore.push acc r vp
  | none => acc

/-- `PolylinePaneView.update()` over the explicit store: allocate a fresh
array (`this._viewPoints = []`), then run the projection loop pushing each
resolvable point into it (`this._viewPoints.push({x, y})`); replace the temp
view point.  The handle-absent early return touches nothing. -/
def heapUpdate (srcPoints : List PolylinePoint) (srcTemp : Option PolylinePoint)
    (chart : Option ChartHandle) (series : Option SeriesHandle)
    (h : HeapPaneView) : HeapPaneView :=
  match series, chart with
  | some ser, some ch =>
      let fresh := ArrStore.alloc h.vpStore []
      let st2 := srcPoints.foldl (pushProjected ch ser fresh.1) fresh.2
      { h with vpStore := st2, _viewPointsRef := fresh.1,
               _tempViewPoint :=
                 match srcTemp with
                 | some tp =>
                     (match ch.timeToCoordinate tp.time,
                            ser.priceToCoordinate tp.price with
                      | some x, some y => some ⟨some x, some y⟩
                      | _, _ => none)
                 | none => none }
  | _, _ => h

/-- `applyOptions` as seen by the pane view's store: the tool builds a fresh
merged record (`this._options = { ...this._options, ...options }`) and points
its `_options` field at it; the old record is not written to. -/
def heapApplyOptions (p : OptionsPatch) (h : HeapPaneView) : HeapPaneView :=
  { h with
    optStore := h.optStore ++ [mergeOptions (h.optStore.getD h._optionsRef defaultOptions) p],
    _optionsRef := h.optStore.length }

/-- The payload captured by `renderer()`: the references and values stored in
`this._viewPoints`, `this._tempViewPoint` and `this._source._options` at
capture time (`new PolylineRenderer({ points: this._viewPoints, options:
this._source._options, tempPoint: this._tempViewPoint })`). -/
structure RendererPayload where
  pointsRef : Nat
  tempPoint : Option ViewPoint
  optionsRef : Nat
deriving DecidableEq

/-- `PolylinePaneView.renderer()`. -/
def heapRenderer (h : HeapPaneView) : RendererPayload :=
  ⟨h._viewPointsRef, h._tempViewPoint, h._optionsRef⟩

/-- What an in-flight `draw` reads from a payload under a given store state:
the dereferenced point array, the temp point, and the dereferenced options. -/
def observe (h : HeapPaneView) (p : RendererPayload) :
    List ViewPoint × Option ViewPoint × PolylineOptions :=
  (ArrStore.get h.vpStore p.pointsRef, p.tempPoint,
   h.optStore.getD p.optionsRef defaultOptions)

/-- `getPoints()` over the explicit store: allocate a fresh array holding a
copy of the committed points (`[...this._points]`) and return its reference. -/
def heapGetPoints (st : ArrStore PolylinePoint) (pointsRef : Nat) :
    Nat × ArrStore PolylinePoint :=
  ArrStore.alloc st (ArrStore.get st pointsRef)

/-! ## Store lemmas -/

theorem arrStore_get_append_lt {α : Type} (s : ArrStore α) (v : List α) (r : Nat)
    (h : r < s.length) : ArrStore.get (s ++ [v]) r = ArrStore.get s r :=
  List.getD_append _ _ _ _ h

theorem arrStore_get_append_self {α : Type} (s : ArrStore α) (v : List α) :
    ArrStore.get (s ++ [v]) s.length = v := by
  simp [ArrStore.get, List.getD_eq_getElem?_getD]

theorem arrStore_get_set_ne {α : Type} (s : ArrStore α) (i j : Nat) (v : List α)
    (h : i ≠ j) : ArrStore.get (s.set i v) j = ArrStore.get s j := by
  unfold ArrStore.get
  rw [List.getD_eq_getElem?_getD, List.getD_eq_getElem?_getD, List.getElem?_set_ne h]

theorem arrStore_get_push_ne {α : Type} (s : ArrStore α) (r j : Nat) (v : α)
    (h : r ≠ j) : ArrStore.get (ArrStore.push s r v) j = ArrStore.get s j :=
  arrStore_get_set_ne _ _ _ _ h

theorem arrStore_get_pushFold_ne (ch : ChartHandle) (ser : SeriesHandle)
    (r j : Nat) (h : r ≠ j) :
    ∀ (l : List PolylinePoint) (st : ArrStore ViewPoint),
      ArrStore.get (l.foldl (pushProjected ch ser r) st) j = ArrStore.get st j := by
  intro l
  induction l with
  | nil => intro st; rfl
  | cons a l ih =>
      intro st
      simp only [List.foldl_cons, pushProjected]
      cases hga : projectPoint ch ser a with
      | some vp => simp only [hga]; rw [ih, arrStore_get_push_ne _ _ _ _ h]
      | none => simp only [hga]; rw [ih]

/-! ## Canvas-op extraction lemmas -/

theorem pathOf_nil : pathOf [] = [] := rfl

theorem arcCentersOf_nil : arcCentersOf [] = [] := rfl

theorem pathOf_cons (op : CanvasOp) (l : List CanvasOp) :
    pathOf (op :: l) = (pathVertex op).toList ++ pathOf l := by
  simp only [pathOf, List.filterMap_cons]
  cases h : pathVertex op <;> simp [h]

theorem pathOf_append (l l' : List CanvasOp) :
    pathOf (l ++ l') = pathOf l ++ pathOf l' := by
  simp [pathOf]

theorem arcCentersOf_cons (op : CanvasOp) (l : List CanvasOp) :
    arcCentersOf (op :: l) = (arcCenter op).toList ++ arcCentersOf l := by
  simp only [arcCentersOf, List.filterMap_cons]
  cases h : arcCenter op <;> simp [h]

theorem arcCentersOf_append (l l' : List CanvasOp) :
    arcCentersOf (l ++ l') = arcCentersOf l ++ arcCentersOf l' := by
  simp [arcCentersOf]

theorem pathOf_marker (o : PolylineOptions) (h v : ℚ) (p : ViewPoint) :
    pathOf (markerOps o h v p) = [] := by
  obtain ⟨px, py⟩ := p
  cases px <;> cases py <;> rfl

theorem arcCentersOf_marker (o : PolylineOptions) (h v : ℚ) (p : ViewPoint) :
    arcCentersOf (markerOps o h v p) = (resolvedPixel h v p).toList := by
  obtain ⟨px, py⟩ := p
  cases px <;> cases py <;> rfl

theorem pathOf_markersFlatten (o : PolylineOptions) (h v : ℚ) :
    ∀ pts : List ViewPoint, pathOf ((pts.map (markerOps o h v)).flatten) = [] := by
  intro pts
  induction pts with
  | nil => rfl
  | cons p ps ih =>
      simp [List.map_cons, List.flatten_cons, pathOf_append, pathOf_marker, ih]

theorem arcCentersOf_markersFlatten (o : PolylineOptions) (h v : ℚ) :
    ∀ pts : List ViewPoint,
      arcCentersOf ((pts.map (markerOps o h v)).flatten) = resolvedPixels pts h v := by
  intro pts
  induction pts with
  | nil => rfl
  | cons p ps ih =>
      simp only [List.map_cons, List.flatten_cons, arcCentersOf_append,
        arcCentersOf_marker, ih, resolvedPixels, List.filterMap_cons]
      cases hp : resolvedPixel h v p <;> simp [hp]

theorem pathOf_segs (h v : ℚ) :
    ∀ rest : List ViewPoint,
      pathOf (rest.filterMap (segOp h v)) = resolvedPixels rest h v := by
  intro rest
  induction rest with
  | nil => rfl
  | cons p ps ih =>
      obtain ⟨px, py⟩ := p
      cases px <;> cases py <;>
        simp [segOp, resolvedPixel, resolvedPixels, List.filterMap_cons,
          pathOf_cons, pathVertex, ih]

theorem arcCentersOf_segs (h v : ℚ) :
    ∀ rest : List ViewPoint, arcCentersOf (rest.filterMap (segOp h v)) = [] := by
  intro rest
  induction rest with
  | nil => rfl
  | cons p ps ih =>
      obtain ⟨px, py⟩ := p
      cases px <;> cases py <;>
        simp [segOp, List.filterMap_cons, arcCentersOf_cons, arcCenter, ih]

theorem pathOf_tempSeg (h v : ℚ) (tp : Option ViewPoint) :
    pathOf (tempSegOps h v tp) = (tp.bind (resolvedPixel h v)).toList := by
  rcases tp with _ | ⟨px, py⟩
  · rfl
  · cases px <;> cases py <;> rfl

theorem arcCentersOf_tempSeg (h v : ℚ) (tp : Option ViewPoint) :
    arcCentersOf (tempSegOps h v tp) = [] := by
  rcases tp with _ | ⟨px, py⟩
  · rfl
  · cases px <;> cases py <;> rfl

theorem pathOf_dash (o : PolylineOptions) (h : ℚ) : pathOf (dashOps o h) = [] := by
  unfold dashOps
  cases o.lineStyle <;> try rfl
  cases o.dashPattern <;> rfl

theorem arcCentersOf_dash (o : PolylineOptions) (h : ℚ) :
    arcCentersOf (dashOps o h) = [] := by
  unfold dashOps
  cases o.lineStyle <;> try rfl
  cases o.dashPattern <;> rfl

/-! ## Projection-cache lemmas -/

theorem projectPoint_resolved (ch : ChartHandle) (ser : SeriesHandle)
    (a : PolylinePoint) (vp : ViewPoint) (h : projectPoint ch ser a = some vp) :
    vp.x.isSome ∧ vp.y.isSome := by
  unfold projectPoint at h
  cases hx : ch.timeToCoordinate a.time <;>
    cases hy : ser.priceToCoordinate a.price <;> simp [hx, hy] at h
  rw [← h]
  exact ⟨rfl, rfl⟩

theorem update_entries_resolved (ch : ChartHandle) (ser : SeriesHandle)
    (pts : List PolylinePoint) (vp : ViewPoint)
    (h : vp ∈ pts.filterMap (projectPoint ch ser)) :
    vp.x.isSome ∧ vp.y.isSome := by
  obtain ⟨a, _, ha⟩ := List.mem_filterMap.mp h
  exact projectPoint_resolved ch ser a vp ha

theorem resolvedPixels_length_of_resolved (h v : ℚ) :
    ∀ l : List ViewPoint, (∀ vp ∈ l, vp.x.isSome ∧ vp.y.isSome) →
      (resolvedPixels l h v).length = l.length := by
  intro l
  induction l with
  | nil => intro _; rfl
  | cons p ps ih =>
      intro hall
      have hp := hall p (List.mem_cons_self p ps)
      obtain ⟨px, py⟩ := p
      cases px <;> cases py
      · simp at hp
      · simp at hp
      · simp at hp
      · simp only [resolvedPixels, List.filterMap_cons, resolvedPixel,
          List.length_cons]
        simpa [resolvedPixels] using
          ih (fun vp hvp => hall vp (List.mem_cons_of_mem _ hvp))

/-! ## Claim C1 -/

/-- Claim C1, as stated, is false: with chart and series handles present but a
time that the time scale cannot represent (`timeToCoordinate` returns null),
a successful `update()` pass stores nothing for that committed point, so the
cached `ViewPoint` sequence is shorter than the committed `LogicalPoint`
sequence — the unresolved entry is removed from the cache, not merely dropped
from the drawn path. -/
theorem claim1_cache_length_counterexample :
    ((PolylinePaneView.update [⟨1, 10⟩] none
        (some ⟨fun _ => none⟩) (some ⟨fun _ => some 0, fun c => some c⟩)
        initPaneView)._viewPoints).length
      ≠ ([⟨1, 10⟩] : List PolylinePoint).length := by
  decide

/-- Claim C1 (amended): after every successful projection pass (`update()`
with chart and series handles present), the cached `ViewPoint` sequence has
exactly one entry per committed point whose projection resolves — committed
points whose projection is unresolved are omitted from the cached sequence
(rather than stored as null entries), and every cached entry has non-null
coordinates. -/
theorem claim1_cache_counts_resolved_points (pts : List PolylinePoint)
    (tmp : Option PolylinePoint) (ch : ChartHandle) (ser : SeriesHandle)
    (pv : PaneViewState) :
    ((PolylinePaneView.update pts tmp (some ch) (some ser) pv)._viewPoints).length
        = pts.countP (fun p => (projectPoint ch ser p).isSome)
      ∧ ∀ vp ∈ (PolylinePaneView.update pts tmp (some ch) (some ser) pv)._viewPoints,
          vp.x.isSome ∧ vp.y.isSome := by
  constructor
  · simpa [PolylinePaneView.update] using
      List.length_filterMap_eq_countP (projectPoint ch ser) pts
  · intro vp hvp
    simp only [PolylinePaneView.update] at hvp
    exact update_entries_resolved ch ser pts vp hvp

/-! ## Claim C4 -/

/-- Claim C4, as stated, is false: with the chart handle absent, `update()`
leaves the cached sequence exactly as the previous pass left it (here, one
entry with pixel values `(5, 7)`), not a sequence of null entries. -/
theorem claim4_stale_cache_counterexample :
    ((PolylinePaneView.update [⟨1, 10⟩] none none
          (some ⟨fun _ => some 0, fun c => some c⟩)
          ⟨[⟨some 5, some 7⟩], none⟩)._viewPoints = [⟨some 5, some 7⟩])
      ∧ ((PolylinePaneView.update [⟨1, 10⟩] none none
          (some ⟨fun _ => some 0, fun c => some c⟩)
          ⟨[⟨some 5, some 7⟩], none⟩)._viewPoints ≠ [⟨none, none⟩]) := by
  exact ⟨rfl, by decide⟩

/-- Claim C4 (amended): when the chart handle or the series handle is absent,
`update()` raises no error (the embedded function is total, mirroring the
source's bare early return) and leaves the entire pane-view cache unchanged —
retaining whatever pixel values a previous pass computed, rather than
resetting the cache to null entries. -/
theorem claim4_update_noop_without_handles (pts : List PolylinePoint)
    (tmp : Option PolylinePoint) (pv : PaneViewState) :
    (∀ series, PolylinePaneView.update pts tmp none series pv = pv)
      ∧ (∀ chart, PolylinePaneView.update pts tmp chart none pv = pv) := by
  constructor
  · intro series; cases series <;> rfl
  · intro chart; rfl

/-! ## Claim C10 -/

/-- Claim C10: every entry of the cached `ViewPoint` sequence after any call
to `update()` has non-null `x` and `y` — unprojectable committed points are
omitted, not stored as nulls — provided every entry already had non-null
coordinates before the call (true from construction on, since the initial
cache is empty).  Consequently the renderer's per-point null checks never
drop an entry of such a cache: `resolvedPixels` keeps every entry. -/
theorem claim10_cache_always_resolved (pts : List PolylinePoint)
    (tmp : Option PolylinePoint) (chart : Option ChartHandle)
    (series : Option SeriesHandle) (pv : PaneViewState)
    (hInv : ∀ vp ∈ pv._viewPoints, vp.x.isSome ∧ vp.y.isSome) (h v : ℚ) :
    (∀ vp ∈ (PolylinePaneView.update pts tmp chart series pv)._viewPoints,
        vp.x.isSome ∧ vp.y.isSome)
      ∧ (resolvedPixels
            (PolylinePaneView.update pts tmp chart series pv)._viewPoints h v).length
          = ((PolylinePaneView.update pts tmp chart series pv)._viewPoints).length := by
  have hres : ∀ vp ∈ (PolylinePaneView.update pts tmp chart series pv)._viewPoints,
      vp.x.isSome ∧ vp.y.isSome := by
    cases series with
    | none => exact hInv
    | some ser =>
        cases chart with
        | none => exact hInv
        | some ch =>
            intro vp hvp
            simp only [PolylinePaneView.update] at hvp
            exact update_entries_resolved ch ser pts vp hvp
  exact ⟨hres, resolvedPixels_length_of_resolved h v _ hres⟩

/-- Witness for Claim C10's theorem at a concrete state: the freshly
constructed pane view (empty cache) with one committed point and total
coordinate mappings. -/
theorem claim10_cache_always_resolved_witness :
    (∀ vp ∈ (PolylinePaneView.update [⟨1, 10⟩] none
          (some ⟨fun _ => some 2⟩) (some ⟨fun _ => some 3, fun c => some c⟩)
          initPaneView)._viewPoints,
        vp.x.isSome ∧ vp.y.isSome)
      ∧ (resolvedPixels
            (PolylinePaneView.update [⟨1, 10⟩] none
              (some ⟨fun _ => some 2⟩) (some ⟨fun _ => some 3, fun c => some c⟩)
              initPaneView)._viewPoints 1 1).length
          = ((PolylinePaneView.update [⟨1, 10⟩] none
              (some ⟨fun _ => some 2⟩) (some ⟨fun _ => some 3, fun c => some c⟩)
              initPaneView)._viewPoints).length :=
  claim10_cache_always_resolved [⟨1, 10⟩] none
    (some ⟨fun _ => some 2⟩) (some ⟨fun _ => some 3, fun c => some c⟩)
    initPaneView (by simp [initPaneView]) 1 1

/-! ## Claim C2 -/

/-- Claim C2, as stated, is false at the position "first": with the payload
`[{x: null, y: null}, {x: 1, y: 1}, {x: 2, y: 2}]`, `draw` builds no path at
all and paints no markers — even though two resolvable committed points exist
— because the `firstPoint` guard abandons the whole polyline when the first
projection is null. -/
theorem claim2_first_null_counterexample :
    pathOf (PolylineRenderer.draw
        [⟨none, none⟩, ⟨some 1, some 1⟩, ⟨some 2, some 2⟩]
        defaultOptions none 1 1) = []
      ∧ arcCentersOf (PolylineRenderer.draw
        [⟨none, none⟩, ⟨some 1, some 1⟩, ⟨some 2, some 2⟩]
        defaultOptions none 1 1) = []
      ∧ resolvedPixels [⟨none, none⟩, ⟨some 1, some 1⟩, ⟨some 2, some 2⟩] 1 1 ≠ [] := by
  refine ⟨rfl, rfl, by decide⟩

/-- Claim C2 (amended): the null-projection skip holds whenever the unresolved
point is not in the first position.  When the first committed point is
resolvable, the stroked path starts at its pixel and visits exactly the pixels
of the resolvable points of the rest, in order (plus the temp-point extension
when that resolves), and a marker is painted exactly at each resolvable
committed point's pixel — so unresolved points elsewhere in the sequence are
skipped in both path and markers.  When the first committed point is
unresolved, however, `draw` builds no path and paints no markers at all. -/
theorem claim2_null_projection_skip (x0 y0 : ℚ) (rest : List ViewPoint)
    (opts : PolylineOptions) (tmp : Option ViewPoint) (h v : ℚ) :
    (pathOf (PolylineRenderer.draw (⟨some x0, some y0⟩ :: rest) opts tmp h v)
        = (jsRound (x0 * h), jsRound (y0 * v))
            :: (resolvedPixels rest h v ++ (tmp.bind (resolvedPixel h v)).toList)
      ∧ arcCentersOf (PolylineRenderer.draw (⟨some x0, some y0⟩ :: rest) opts tmp h v)
          = resolvedPixels (⟨some x0, some y0⟩ :: rest) h v)
      ∧ (∀ p0 : ViewPoint, resolvedPixel h v p0 = none →
          pathOf (PolylineRenderer.draw (p0 :: rest) opts tmp h v) = []
            ∧ arcCentersOf (PolylineRenderer.draw (p0 :: rest) opts tmp h v) = []) := by
  constructor
  · constructor
    · simp [PolylineRenderer.draw, pathOf_cons, pathOf_append, pathOf_dash,
        pathOf_segs, pathOf_tempSeg, pathOf_markersFlatten, pathOf_marker,
        pathOf_nil, pathVertex]
    · simp [PolylineRenderer.draw, arcCentersOf_cons, arcCentersOf_append,
        arcCentersOf_dash, arcCentersOf_segs, arcCentersOf_tempSeg,
        arcCentersOf_markersFlatten, arcCentersOf_marker, arcCentersOf_nil,
        arcCenter, resolvedPixels, List.filterMap_cons, resolvedPixel]
  · intro p0 hp0
    obtain ⟨px, py⟩ := p0
    cases px <;> cases py <;> simp [resolvedPixel] at hp0 <;>
      constructor <;>
        simp [PolylineRenderer.draw, pathOf_cons, pathOf_append, pathOf_dash,
          pathOf_nil, arcCentersOf_cons, arcCentersOf_append, arcCentersOf_dash,
          arcCentersOf_nil, pathVertex, arcCenter]

/-- Witness for Claim C2's amended theorem: the unresolved point in a
non-first position is exercised by the main conjunct's closed instances
elsewhere; here the hypothesised conjunct is discharged at the concrete
unresolved first point `{x: null, y: 3}`. -/
theorem claim2_null_projection_skip_witness :
    pathOf (PolylineRenderer.draw [⟨none, some 3⟩, ⟨some 1, some 1⟩]
        defaultOptions none 1 1) = []
      ∧ arcCentersOf (PolylineRenderer.draw [⟨none, some 3⟩, ⟨some 1, some 1⟩]
        defaultOptions none 1 1) = [] :=
  (claim2_null_projection_skip 0 0 [⟨some 1, some 1⟩] defaultOptions none 1 1).2
    ⟨none, some 3⟩ (by decide)

/-! ## Claim C8 -/

/-- Claim C8: with zero committed points and a temp point with non-null
coordinates, `draw` issues exactly one circular preview marker at the temp
point and no path-building or stroking operations, then returns; with zero
committed points and a null temp point it issues no drawing operations at all
(only the save/restore bracket); and with at least one committed point the
sequence of painted marker centres is independent of the temp point — the
temp point contributes only a line extension, never a marker. -/
theorem claim8_preview_marker_policy (opts : PolylineOptions) (x y h v : ℚ) :
    (PolylineRenderer.draw [] opts (some ⟨some x, some y⟩) h v
        = [.save, .fillStyle opts.pointColor, .beginPath,
           .arc (jsRound (x * h)) (jsRound (y * v)) (opts.pointRadius * h),
           .fill, .restore])
      ∧ (PolylineRenderer.draw [] opts none h v = [.save, .restore])
      ∧ (∀ (p : ViewPoint) (ps : List ViewPoint) (tmp : Option ViewPoint),
          arcCentersOf (PolylineRenderer.draw (p :: ps) opts tmp h v)
            = arcCentersOf (PolylineRenderer.draw (p :: ps) opts none h v)) := by
  refine ⟨rfl, rfl, ?_⟩
  intro p ps tmp
  obtain ⟨px, py⟩ := p
  cases px <;> cases py <;>
    simp [PolylineRenderer.draw, arcCentersOf_cons, arcCentersOf_append,
      arcCentersOf_dash, arcCentersOf_segs, arcCentersOf_tempSeg,
      arcCentersOf_markersFlatten, arcCentersOf_marker, arcCentersOf_nil,
      arcCenter]

/-! ## Claim C3 -/

/-- Claim C3: the payload captured by `renderer()` is an immutable snapshot.
A subsequent `update()` allocates a fresh array and pushes only into it, and
`applyOptions()` allocates a fresh merged options record, so what an in-flight
`draw` observes through a previously captured payload — the dereferenced
point array, the temp point, and the dereferenced options — is unchanged by
either mutation, for any valid references. -/
theorem claim3_renderer_snapshot_immutable (hp : HeapPaneView)
    (pts : List PolylinePoint) (tmp : Option PolylinePoint)
    (chart : Option ChartHandle) (series : Option SeriesHandle)
    (patch : OptionsPatch)
    (hVp : hp._viewPointsRef < hp.vpStore.length)
    (hOpt : hp._optionsRef < hp.optStore.length) :
    observe (heapUpdate pts tmp chart series hp) (heapRenderer hp)
        = observe hp (heapRenderer hp)
      ∧ observe (heapApplyOptions patch hp) (heapRenderer hp)
          = observe hp (heapRenderer hp) := by
  constructor
  · cases series with
    | none => cases chart <;> rfl
    | some ser =>
        cases chart with
        | none => rfl
        | some ch =>
            simp only [observe, heapUpdate, heapRenderer, ArrStore.alloc]
            rw [arrStore_get_pushFold_ne ch ser _ _
                (Ne.symm (ne_of_lt hVp)),
              arrStore_get_append_lt _ _ _ hVp]
  · simp only [observe, heapApplyOptions, heapRenderer]
    rw [List.getD_append _ _ _ _ hOpt]

/-- Witness for Claim C3's theorem: a concrete heap with one live view-point
array and one live options record, updated with a fresh committed point and
restyled with a color patch. -/
theorem claim3_renderer_snapshot_immutable_witness :
    observe
        (heapUpdate [⟨1, 10⟩] none (some ⟨fun _ => some 2⟩)
          (some ⟨fun _ => some 3, fun c => some c⟩)
          ⟨[[⟨some 1, some 2⟩]], [defaultOptions], 0, none, 0⟩)
        (heapRenderer ⟨[[⟨some 1, some 2⟩]], [defaultOptions], 0, none, 0⟩)
      = observe ⟨[[⟨some 1, some 2⟩]], [defaultOptions], 0, none, 0⟩
          (heapRenderer ⟨[[⟨some 1, some 2⟩]], [defaultOptions], 0, none, 0⟩)
    ∧ observe
        (heapApplyOptions ⟨some "#FF0000", none, none, none, none, none⟩
          ⟨[[⟨some 1, some 2⟩]], [defaultOptions], 0, none, 0⟩)
        (heapRenderer ⟨[[⟨some 1, some 2⟩]], [defaultOptions], 0, none, 0⟩)
      = observe ⟨[[⟨some 1, some 2⟩]], [defaultOptions], 0, none, 0⟩
          (heapRenderer ⟨[[⟨some 1, some 2⟩]], [defaultOptions], 0, none, 0⟩) :=
  claim3_renderer_snapshot_immutable
    ⟨[[⟨some 1, some 2⟩]], [defaultOptions], 0, none, 0⟩
    [⟨1, 10⟩] none (some ⟨fun _ => some 2⟩)
    (some ⟨fun _ => some 3, fun c => some c⟩)
    ⟨some "#FF0000", none, none, none, none, none⟩
    (by decide) (by decide)

/-! ## Concrete states for witnesses -/

/-- A concrete chart handle with a total time mapping. -/
def sampleChart : ChartHandle := ⟨fun _ => some 3⟩

/-- A concrete series handle with total mappings. -/
def sampleSeries : SeriesHandle := ⟨fun _ => some 4, fun c => some c⟩

/-- A tool state as produced by `attached` + `activate`: both handles stored,
both handlers subscribed, one committed point and a live temp point. -/
def sampleActiveTool : ToolState :=
  { _chart := some sampleChart, _series := some sampleSeries,
    _points := [⟨1, 10⟩], _options := defaultOptions, _active := true,
    _clickHandlerSet := true, _moveHandlerSet := true,
    _tempPoint := some ⟨2, 20⟩, _requestUpdateSet := true,
    _paneView := initPaneView }

/-- A tool state after `deactivate` (attached but inactive). -/
def sampleInactiveTool : ToolState :=
  { _chart := none, _series := none, _points := [⟨1, 10⟩],
    _options := defaultOptions, _active := false, _clickHandlerSet := false,
    _moveHandlerSet := false, _tempPoint := none, _requestUpdateSet := true,
    _paneView := initPaneView }

/-! ## Claim C7 -/

/-- Claim C7: `activate` in the Active state returns before touching any
field and issues no host calls, and `deactivate` in the Inactive state does
the same — double activate and double deactivate are idempotent no-ops. -/
theorem claim7_double_transitions_idempotent (s : ToolState) (ch : ChartHandle)
    (ser : SeriesHandle) :
    (s._active = true → activate ch ser s = (s, []))
      ∧ (s._active = false → deactivate s = (s, [])) := by
  constructor
  · intro hA; simp [activate, hA]
  · intro hA; simp [deactivate, hA]

/-- Witness for Claim C7's theorem: double activate on the concrete active
state and double deactivate on the concrete inactive state. -/
theorem claim7_double_transitions_idempotent_witness :
    activate sampleChart sampleSeries sampleActiveTool = (sampleActiveTool, [])
      ∧ deactivate sampleInactiveTool = (sampleInactiveTool, []) :=
  ⟨(claim7_double_transitions_idempotent sampleActiveTool sampleChart sampleSeries).1 rfl,
   (claim7_double_transitions_idempotent sampleInactiveTool sampleChart sampleSeries).2 rfl⟩

/-! ## Claim C9 -/

/-- Claim C9: in any state (active or not), `clearPoints()` empties the
committed sequence, clears the temp point and requests a repaint (the
`requestUpdate` callback being attached), after which `getPoints()` returns
the empty sequence. -/
theorem claim9_clearPoints_resets (s : ToolState)
    (hR : s._requestUpdateSet = true) :
    (clearPoints s).1._points = []
      ∧ (clearPoints s).1._tempPoint = none
      ∧ (clearPoints s).2 = [.requestRepaint]
      ∧ getPoints (clearPoints s).1 = [] := by
  simp [clearPoints, updateView, getPoints, hR]

/-- Witness for Claim C9's theorem, instantiated at the concrete active
state (the theorem itself holds for any state, active or not). -/
theorem claim9_clearPoints_resets_witness :
    (clearPoints sampleActiveTool).1._points = []
      ∧ (clearPoints sampleActiveTool).1._tempPoint = none
      ∧ (clearPoints sampleActiveTool).2 = [.requestRepaint]
      ∧ getPoints (clearPoints sampleActiveTool).1 = [] :=
  claim9_clearPoints_resets sampleActiveTool rfl

/-! ## Claim C6 -/

/-- Claim C6: from any Active state (chart handle stored, both handlers
subscribed, repaint callback attached), `deactivate()` clears the temp point,
leaves the committed points untouched, unregisters both subscribers, clears
the stored chart and series handles, and requests a repaint; afterwards
neither a click nor a crosshair-move notification is processed (the chart no
longer holds the handlers), until the next `activate()`. -/
theorem claim6_deactivate_effects (s : ToolState) (ch : ChartHandle)
    (hA : s._active = true) (hC : s._chart = some ch)
    (hCk : s._clickHandlerSet = true) (hMv : s._moveHandlerSet = true)
    (hR : s._requestUpdateSet = true) :
    (deactivate s).1._tempPoint = none
      ∧ (deactivate s).1._points = s._points
      ∧ (deactivate s).1._clickHandlerSet = false
      ∧ (deactivate s).1._moveHandlerSet = false
      ∧ (deactivate s).1._chart = none
      ∧ (deactivate s).1._series = none
      ∧ (deactivate s).1._active = false
      ∧ (deactivate s).2
          = [.unsubscribeClick, .unsubscribeCrosshairMove, .requestRepaint]
      ∧ (∀ param, notifyClick (deactivate s).1 param = ((deactivate s).1, [])
          ∧ notifyMove (deactivate s).1 param = ((deactivate s).1, [])) := by
  have hd : deactivate s
      = ({ s with _clickHandlerSet := false, _moveHandlerSet := false,
                  _active := false, _chart := none, _series := none,
                  _tempPoint := none },
         [.unsubscribeClick, .unsubscribeCrosshairMove, .requestRepaint]) := by
    simp [deactivate, hA, hC, hCk, hMv, updateView, hR]
  rw [hd]
  refine ⟨rfl, rfl, rfl, rfl, rfl, rfl, rfl, rfl, ?_⟩
  intro param
  exact ⟨by simp [notifyClick], by simp [notifyMove]⟩

/-- Witness for Claim C6's theorem at the concrete active state (with a
concrete posthumous notification). -/
theorem claim6_deactivate_effects_witness :
    (deactivate sampleActiveTool).1._tempPoint = none
      ∧ (deactivate sampleActiveTool).1._points = sampleActiveTool._points
      ∧ (deactivate sampleActiveTool).1._clickHandlerSet = false
      ∧ (deactivate sampleActiveTool).1._moveHandlerSet = false
      ∧ (deactivate sampleActiveTool).1._chart = none
      ∧ (deactivate sampleActiveTool).1._series = none
      ∧ (deactivate sampleActiveTool).1._active = false
      ∧ (deactivate sampleActiveTool).2
          = [.unsubscribeClick, .unsubscribeCrosshairMove, .requestRepaint]
      ∧ (notifyClick (deactivate sampleActiveTool).1 ⟨some ⟨1, 2⟩, some 5⟩
            = ((deactivate sampleActiveTool).1, [])
          ∧ notifyMove (deactivate sampleActiveTool).1 ⟨some ⟨1, 2⟩, some 5⟩
            = ((deactivate sampleActiveTool).1, [])) := by
  have T := claim6_deactivate_effects sampleActiveTool sampleChart
    rfl rfl rfl rfl rfl
  exact ⟨T.1, T.2.1, T.2.2.1, T.2.2.2.1, T.2.2.2.2.1, T.2.2.2.2.2.1,
    T.2.2.2.2.2.2.1, T.2.2.2.2.2.2.2.1,
    T.2.2.2.2.2.2.2.2 ⟨some ⟨1, 2⟩, some 5⟩⟩

/-! ## Click-handling lemmas -/

theorem notifyClick_step (s : ToolState) (ser : SeriesHandle)
    (param : MouseEventParams) (hA : s._active = true)
    (hH : s._clickHandlerSet = true) (hS : s._series = some ser) :
    (notifyClick s param).1._points = s._points ++ (clickToPoint ser param).toList
      ∧ (notifyClick s param).1._active = true
      ∧ (notifyClick s param).1._clickHandlerSet = true
      ∧ (notifyClick s param).1._series = some ser := by
  obtain ⟨pt, t⟩ := param
  cases pt with
  | none => simp [notifyClick, clickHandlerBody, clickToPoint, hH, hA, hS]
  | some p =>
      cases t with
      | none => simp [notifyClick, clickHandlerBody, clickToPoint, hH, hA, hS]
      | some tt =>
          by_cases h0 : tt = 0
          · simp [notifyClick, clickHandlerBody, clickToPoint, hH, hA, hS, h0]
          · cases hc : ser.coordinateToPrice p.y with
            | none =>
                simp [notifyClick, clickHandlerBody, clickToPoint, hH, hA, hS,
                  h0, hc]
            | some price =>
                simp [notifyClick, clickHandlerBody, clickToPoint, addPoint,
                  hH, hA, hS, h0, hc]

theorem notifyClick_fold (ser : SeriesHandle) :
    ∀ (params : List MouseEventParams) (s : ToolState),
      s._active = true → s._clickHandlerSet = true → s._series = some ser →
      (params.foldl clickStep s)._points
          = s._points ++ params.filterMap (clickToPoint ser)
        ∧ (params.foldl clickStep s)._active = true
        ∧ (params.foldl clickStep s)._clickHandlerSet = true
        ∧ (params.foldl clickStep s)._series = some ser := by
  intro params
  induction params with
  | nil => intro s hA hH hS; exact ⟨by simp, hA, hH, hS⟩
  | cons p ps ih =>
      intro s hA hH hS
      obtain ⟨h1, h2, h3, h4⟩ := notifyClick_step s ser p hA hH hS
      obtain ⟨g1, g2, g3, g4⟩ := ih (clickStep s p) h2 h3 h4
      refine ⟨?_, g2, g3, g4⟩
      have hstep : (clickStep s p)._points
          = s._points ++ (clickToPoint ser p).toList := h1
      rw [List.foldl_cons, g1, hstep, List.append_assoc]
      cases hc : clickToPoint ser p <;> simp [List.filterMap_cons, hc]

/-! ## Claim C5 -/

/-- Claim C5: delivering any sequence of valid clicks (pixel point present,
truthy time, successful price conversion) in the Active state appends exactly
the converted `(time, price)` points in click order — `getPoints()` then
returns the prior points followed by all of them, none dropped or reordered,
with length preserved.  Moreover the array `getPoints()` returns is a fresh
copy (`[...this._points]`): over the explicit store, the returned reference
holds the same contents as `_points` but pushing onto it leaves the array
referenced by `_points` unchanged. -/
theorem claim5_click_order_and_defensive_copy (s : ToolState)
    (ser : SeriesHandle) (params : List MouseEventParams)
    (hA : s._active = true) (hH : s._clickHandlerSet = true)
    (hS : s._series = some ser)
    (hV : ∀ p ∈ params, (clickToPoint ser p).isSome) :
    getPoints (params.foldl clickStep s)
        = getPoints s ++ params.filterMap (clickToPoint ser)
      ∧ (params.filterMap (clickToPoint ser)).length = params.length
      ∧ (∀ (st : ArrStore PolylinePoint) (r : Nat), r < st.length →
          ArrStore.get (heapGetPoints st r).2 (heapGetPoints st r).1
              = ArrStore.get st r
            ∧ ∀ q, ArrStore.get
                  (ArrStore.push (heapGetPoints st r).2 (heapGetPoints st r).1 q) r
                = ArrStore.get st r) := by
  refine ⟨(notifyClick_fold ser params s hA hH hS).1, ?_, ?_⟩
  · rw [List.length_filterMap_eq_countP]
    exact List.countP_eq_length.mpr hV
  · intro st r hr
    have hne : st.length ≠ r := Ne.symm (ne_of_lt hr)
    constructor
    · exact arrStore_get_append_self st (ArrStore.get st r)
    · intro q
      calc ArrStore.get
              (ArrStore.push (heapGetPoints st r).2 (heapGetPoints st r).1 q) r
          = ArrStore.get (heapGetPoints st r).2 r :=
            arrStore_get_push_ne _ _ _ _ hne
        _ = ArrStore.get st r := arrStore_get_append_lt _ _ _ hr

/-- Witness for Claim C5's theorem: one valid click delivered to the concrete
active tool, and the defensive copy exercised on a one-array store. -/
theorem claim5_click_order_and_defensive_copy_witness :
    getPoints (([⟨some ⟨1, 2⟩, some 5⟩] : List MouseEventParams).foldl
          clickStep sampleActiveTool)
        = getPoints sampleActiveTool
            ++ ([⟨some ⟨1, 2⟩, some 5⟩] : List MouseEventParams).filterMap
                  (clickToPoint sampleSeries)
      ∧ (([⟨some ⟨1, 2⟩, some 5⟩] : List MouseEventParams).filterMap
            (clickToPoint sampleSeries)).length = 1
      ∧ (ArrStore.get (heapGetPoints [[⟨1, 10⟩]] 0).2 (heapGetPoints [[⟨1, 10⟩]] 0).1
            = ArrStore.get [[⟨1, 10⟩]] 0
          ∧ ArrStore.get
                (ArrStore.push (heapGetPoints [[⟨1, 10⟩]] 0).2
                  (heapGetPoints [[⟨1, 10⟩]] 0).1 ⟨9, 9⟩) 0
              = ArrStore.get [[⟨1, 10⟩]] 0) := by
  have T := claim5_click_order_and_defensive_copy sampleActiveTool sampleSeries
    [⟨some ⟨1, 2⟩, some 5⟩] rfl rfl rfl (by decide)
  exact ⟨T.1, T.2.1, (T.2.2 [[⟨1, 10⟩]] 0 (by decide)).1,
    (T.2.2 [[⟨1, 10⟩]] 0 (by decide)).2 ⟨9, 9⟩⟩
